import Mathlib

/-!
Verification development for the StackGAN training repository
(`train.py`, `networks.py`, `namedtuples.py`,
`tfstackgan/python/estimator/python/gan_estimator_impl.py`).

The embedding models the orchestration layer: tensors are represented by an
identity tag together with their static shape, the TensorFlow variable store is
a list of created variables tagged with the scope that owns them, and the
per-stage stack construction of `train.py`'s `main` is a recursive builder that
threads the previous stage's hidden code and the growing variable store through
the stages.  Fallible construction steps return `Except PyError`, mirroring the
Python exceptions (`ValueError`, `NameError`, `TypeError`, `IndexError`) the
source can raise.
-/

set_option autoImplicit false

/-- Python exception kinds raised by the modelled code paths. -/
inductive PyError where
  | valueError
  | nameError
  | typeError
  | indexError
deriving DecidableEq, Repr

/-- A tensor dimension: `none` is an unknown (dynamic) dimension. -/
abbrev Dim := Option Nat

/-- A static tensor shape, as in `tf.TensorShape` with known rank. -/
abbrev Shape := List Dim

/-- Dimension compatibility: an unknown dimension is compatible with anything,
known dimensions must agree (`tf.Dimension.is_compatible_with`). -/
def dimCompatible : Dim → Dim → Bool
  | none, _ => true
  | _, none => true
  | some a, some b => a == b

/-- `tf.TensorShape.is_compatible_with` for known-rank shapes: equal rank and
pointwise compatible dimensions. -/
def shapeCompatible : Shape → Shape → Bool
  | [], [] => true
  | d1 :: s1, d2 :: s2 => dimCompatible d1 d2 && shapeCompatible s1 s2
  | _, _ => false

/-- A tensor, modelled by an identity tag together with its static shape. -/
structure Tensor where
  id : Nat
  shape : Shape
deriving DecidableEq, Repr

/-- A trainable variable, tagged with the scope that created it.
`genStage i v` is variable `v` created under the shared generator super-scope
at path `Generator/Generator_stage_i/v`; `disStage i v` is variable `v` created
under the per-stage scope `Discriminator_stage_i/v`.  All scope names occurring
in the source are distinct path components, so scope-filtered variable lookup
(`tf.trainable_variables(scope)`) is modelled as filtering on these tags. -/
inductive VarScope where
  | genStage (stage : Nat) (v : String)
  | disStage (stage : Nat) (v : String)
deriving DecidableEq, Repr

/-- The global variable store, in creation order. -/
abbrev VarStore := List VarScope

/-- Does a variable live under the generator super-scope `Generator`? -/
def isGenVar : VarScope → Bool
  | .genStage _ _ => true
  | .disStage _ _ => false

/-- Does a variable live under the per-stage scope `Discriminator_stage_i`? -/
def isDisVarOf (stage : Nat) : VarScope → Bool
  | .disStage s _ => s == stage
  | .genStage _ _ => false

/-- `tf.trainable_variables(generator_super_scope.name)` (train.py:109). -/
def trainable_variables_gen (store : VarStore) : List VarScope :=
  store.filter isGenVar

/-- `tf.trainable_variables(dis_scope.name)` (train.py:110). -/
def trainable_variables_dis (store : VarStore) (stage : Nat) : List VarScope :=
  store.filter (isDisVarOf stage)

/-- Generator inputs on the `train.py` path
(`_get_generator_input_for_stage`, train.py:132-141):
the first stage receives the raw noise sample, every later stage receives the
two-element list `[previous hidden code, noise]`. -/
inductive GenInputs where
  | noiseOnly (noise : Tensor)
  | hiddenNoise (hidden : Tensor) (noise : Tensor)
deriving DecidableEq, Repr

/-- `final_size` passed to the generator on the training path:
`2 ** (5 + stage)` (train.py:90, and the matching `_get_real_data_for_stage`
resolution at train.py:144). -/
def train_stage_final_size (stage : Nat) : Nat := 2 ^ (5 + stage)

/-- `final_size` passed to the generator on the prediction path:
`2 ** (6 + stage)` (gan_estimator_impl.py:457). -/
def predict_stage_final_size (stage : Nat) : Nat := 2 ^ (6 + stage)

/-- The per-stage record returned by `gan_model` (train.py:112-125), a
`StackGANModel` namedtuple.  The function-reference fields `generator_fn` and
`discriminator_fn` are omitted (they carry no data relevant to the claims);
discriminator outputs are the identity tags returned by the discriminator. -/
structure StackGANModel where
  generator_inputs : GenInputs
  generated_data : Tensor
  generator_variables : List VarScope
  generator_scope : String
  real_data : Tensor
  discriminator_real_outputs : Nat
  discriminator_gen_outputs : Nat
  discriminator_variables : List VarScope
  discriminator_scope : String
  generator_hidden_code : Tensor
  stage : Nat
deriving DecidableEq, Repr

/-- The injected collaborators and configuration of one stack build on the
`train.py` path: the generator and discriminator network functions (with the
trainable variables each creates per stage), the per-stage real data
(`_get_real_data_for_stage`), the noise sample, and the `check_shapes` option
of `gan_model`. -/
structure BuildCfg where
  genFn : GenInputs → Nat → Tensor × Tensor
  disFn : Tensor → Nat
  gVars : Nat → List String
  dVars : Nat → List String
  realData : Nat → Tensor
  noise : Tensor
  checkShapes : Bool

/-- One stage of `gan_model` (train.py:66-125): run the generator inside the
shared super-scope (creating that stage's generator variables), discriminate
the generated and the real data inside the per-stage discriminator scope
(creating that stage's discriminator variables once, reused for the second
call under `AUTO_REUSE`), check shape compatibility when `check_shapes` is
set (raising `ValueError` on mismatch, train.py:102-106), and snapshot the
scope-filtered trainable variables (train.py:108-110). -/
def gan_model (cfg : BuildCfg) (stage : Nat) (genInput : GenInputs)
    (store : VarStore) : Except PyError (StackGANModel × VarStore) :=
  let gout := cfg.genFn genInput (train_stage_final_size stage)
  let store1 := store ++ (cfg.gVars stage).map (VarScope.genStage stage)
  let disGenOut := cfg.disFn gout.fst
  let store2 := store1 ++ (cfg.dVars stage).map (VarScope.disStage stage)
  let real := cfg.realData stage
  let disRealOut := cfg.disFn real
  if cfg.checkShapes && !(shapeCompatible gout.fst.shape real.shape) then
    .error .valueError
  else
    .ok ({ generator_inputs := genInput
           generated_data := gout.fst
           generator_variables := trainable_variables_gen store2
           generator_scope := "Generator"
           real_data := real
           discriminator_real_outputs := disRealOut
           discriminator_gen_outputs := disGenOut
           discriminator_variables := trainable_variables_dis store2 stage
           discriminator_scope := "Discriminator_stage_" ++ Nat.repr stage
           generator_hidden_code := gout.snd
           stage := stage }, store2)

/-- The generator input chosen for a stage (train.py:139):
`[gan_models[i - 1].generator_hidden_code, noise] if i else noise`.
The previous model's hidden code is threaded as `prevHidden`, which is `none`
exactly at stage 0. -/
def stageInputOf (cfg : BuildCfg) : Option Tensor → GenInputs
  | none => GenInputs.noiseOnly cfg.noise
  | some h => GenInputs.hiddenNoise h cfg.noise

/-- The stage loop of `main` (train.py:150-160), building `remaining` further
stages starting at index `stage`, threading the previous stage's hidden code
and the variable store. -/
def buildStackGo (cfg : BuildCfg) :
    Nat → Nat → Option Tensor → VarStore → Except PyError (List StackGANModel)
  | 0, _, _, _ => .ok []
  | remaining + 1, stage, prevHidden, store =>
    match gan_model cfg stage (stageInputOf cfg prevHidden) store with
    | .error e => .error e
    | .ok (m, store2) =>
      match buildStackGo cfg remaining (stage + 1) (some m.generator_hidden_code) store2 with
      | .error e => .error e
      | .ok rest => .ok (m :: rest)

/-- Build the whole training-mode stack: `for i in range(FLAGS.stack_depth)`
(train.py:151). -/
def buildStack (cfg : BuildCfg) (stack_depth : Nat) :
    Except PyError (List StackGANModel) :=
  buildStackGo cfg stack_depth 0 none []

/-- `[i, i + 1, ..., i + n - 1]`: the stage indices produced by the build loop. -/
def rangeFrom (i : Nat) : Nat → List Nat
  | 0 => []
  | n + 1 => i :: rangeFrom (i + 1) n

/-- The variables the two network functions create at stage `k`. -/
def stageVars (cfg : BuildCfg) (k : Nat) : VarStore :=
  (cfg.gVars k).map (VarScope.genStage k) ++ (cfg.dVars k).map (VarScope.disStage k)

/-- The variable store after the first `i` stages have been built. -/
def storeUpTo (cfg : BuildCfg) : Nat → VarStore
  | 0 => []
  | i + 1 => storeUpTo cfg i ++ stageVars cfg i

/-- All generator variables created by stages `0, ..., i`: the snapshot
`tf.trainable_variables('Generator')` taken right after stage `i` is built. -/
def genVarsUpTo (cfg : BuildCfg) : Nat → List VarScope
  | 0 => (cfg.gVars 0).map (VarScope.genStage 0)
  | i + 1 => genVarsUpTo cfg i ++ (cfg.gVars (i + 1)).map (VarScope.genStage (i + 1))

/-! ## Estimator build paths (`gan_estimator_impl.py`) -/

/-- Generator input on the estimator path: the triple
`(is_init_stage, noise, conditioning)` returned by the inner `get_input` of
`_get_generator_input_for_stage` (gan_estimator_impl.py:315-328), where the
`noise` slot holds either the noise sample (first stage) or the previous
stage's hidden code (later stages). -/
structure EstGenInput where
  is_init_stage : Bool
  code : Tensor
  conditioning : Tensor
deriving DecidableEq, Repr

/-- A stage model on the estimator train/eval path.  Only the fields the
claims inspect are kept; see `tfstackgan_gan_model` for the provenance. -/
structure EstStageModel where
  generator_inputs : EstGenInput
  generated_data : Tensor
  generator_hidden_code : Tensor
  stage : Nat
deriving DecidableEq, Repr

/-- `_get_generator_input_for_stage` of `_make_gan_models`
(gan_estimator_impl.py:315-328), with the inner closure already applied:
stage 0 receives `(True, noise_sample, conditioning)`; stage `i > 0` receives
`(False, models[i - 1].generator_hidden_code, conditioning)`.  An
out-of-range access to `models[stage - 1]` would be a Python `IndexError`,
rendered here as `none`. -/
def est_get_generator_input_for_stage (models : List EstStageModel) (stage : Nat)
    (noise_sample conditioning : Tensor) : Option EstGenInput :=
  if stage == 0 then
    some { is_init_stage := true, code := noise_sample, conditioning := conditioning }
  else
    (models[stage - 1]?).map fun m =>
      { is_init_stage := false, code := m.generator_hidden_code,
        conditioning := conditioning }

/-- Modelled from the spec: `tfstackgan.python.train.gan_model`, called by
`_make_gan_models` (gan_estimator_impl.py:351), is not under `src/` — only its
call site is.  Per the spec's Stage Model Builder contract, it calls the
stage's generator-input closure, runs the generator, and returns a StageModel
recording the generator inputs, the generated data, the hidden code and the
stage index it was given (discriminator and scope bookkeeping omitted). -/
def tfstackgan_gan_model (genFn : EstGenInput → Tensor × Tensor)
    (inp : EstGenInput) (stage : Nat) : EstStageModel :=
  { generator_inputs := inp
    generated_data := (genFn inp).fst
    generator_hidden_code := (genFn inp).snd
    stage := stage }

/-- The stage loop of `_make_gan_models` (gan_estimator_impl.py:330-365):
`for stage in range(stack_depth)`, passing the models built so far to the
generator-input closure and `'stage': stage` to the stage model builder. -/
def make_gan_models_go (genFn : EstGenInput → Tensor × Tensor)
    (noise conditioning : Tensor) :
    Nat → Nat → List EstStageModel → Except PyError (List EstStageModel)
  | 0, _, acc => .ok acc
  | remaining + 1, stage, acc =>
    match est_get_generator_input_for_stage acc stage noise conditioning with
    | none => .error .indexError
    | some inp =>
      make_gan_models_go genFn noise conditioning remaining (stage + 1)
        (acc ++ [tfstackgan_gan_model genFn inp stage])

/-- `_make_gan_models` (gan_estimator_impl.py:297-365), used by both
`_make_train_gan_models` and `_make_eval_gan_models`.  The noise sample and
the augmented conditioning (`networks.augment`, whose definition is not under
`src/`) are taken as inputs. -/
def make_gan_models (genFn : EstGenInput → Tensor × Tensor)
    (stack_depth : Nat) (noise conditioning : Tensor) :
    Except PyError (List EstStageModel) :=
  make_gan_models_go genFn noise conditioning stack_depth 0 []

/-- The generator input `est_get_generator_input_for_stage` resolves to for a
stage, given the hidden code of the model built last (`none` exactly at
stage 0). -/
def estInputFor (noise conditioning : Tensor) : Nat → Option Tensor → EstGenInput
  | 0, _ => { is_init_stage := true, code := noise, conditioning := conditioning }
  | _ + 1, some h => { is_init_stage := false, code := h, conditioning := conditioning }
  | _ + 1, none => { is_init_stage := false, code := noise, conditioning := conditioning }

/-- The models `make_gan_models_go` appends after its accumulator, given the
hidden code of the stage built last (`none` exactly at stage 0). -/
def estTail (genFn : EstGenInput → Tensor × Tensor) (noise conditioning : Tensor) :
    Nat → Nat → Option Tensor → List EstStageModel
  | 0, _, _ => []
  | remaining + 1, stage, prevHidden =>
    tfstackgan_gan_model genFn (estInputFor noise conditioning stage prevHidden) stage
      :: estTail genFn noise conditioning remaining (stage + 1)
        (some (genFn (estInputFor noise conditioning stage prevHidden)).snd)

/-! ## Prediction build path (`_make_prediction_gan_model`) -/

/-- A stage model on the prediction path (gan_estimator_impl.py:466-483):
every discriminator-side field of the `StackGANModel` namedtuple is passed as
`None` there, so only the generator-side fields are modelled.  Note the
`stage` keyword at line 473 is passed the constant `stack_depth`. -/
structure PredStageModel where
  generator_inputs : Bool × Tensor × Tensor
  generated_data : Tensor
  generator_hidden_code : Tensor
  stage : Nat
deriving DecidableEq, Repr

/-- A Python value that is either a function object or a 3-tuple. -/
inductive PyValue where
  | func (f : Unit → Option (Bool × Tensor × Tensor))
  | tuple3 (t : Bool × Tensor × Tensor)

/-- `_get_generator_input_for_stage` of `_make_prediction_gan_model`
(gan_estimator_impl.py:402-415): it returns the inner function `get_input`
itself, a function object.  The body of the closure is kept: if called, it
would produce `(is_init_stage, noise-or-previous-hidden-code, conditioning)`. -/
def pred_get_generator_input_for_stage (models : List PredStageModel) (stage : Nat)
    (noise_sample conditioning : Tensor) : PyValue :=
  PyValue.func fun _ =>
    if stage == 0 then
      some (true, noise_sample, conditioning)
    else
      (models[stage - 1]?).map fun m => (false, m.generator_hidden_code, conditioning)

/-- Tuple-unpacking `a, b, c = v` of a Python value: unpacking a function
object raises `TypeError` (cannot unpack non-iterable function object). -/
def unpack3 : PyValue → Except PyError (Bool × Tensor × Tensor)
  | .func _ => .error .typeError
  | .tuple3 t => .ok t

/-- The stage loop of `_make_prediction_gan_model`
(gan_estimator_impl.py:433-487).  Line 449 unpacks the value of
`_get_generator_input_for_stage(...)` into three names without calling it, so
each iteration starts with `unpack3` of a function object; the remainder of
the loop body (generator call with `final_size = 2 ** (6 + stage)`, model
record with `stage=stack_depth`) is modelled after the `do`-bind and is
unreachable.  After the loop, `return gan_models[-1]`; on an empty list that
would be an `IndexError`. -/
def make_prediction_gan_model_go
    (genFn : Bool × Tensor × Tensor → Nat → Tensor × Tensor)
    (stack_depth : Nat) (noise conditioning : Tensor) :
    Nat → Nat → List PredStageModel → Except PyError PredStageModel
  | 0, _, acc =>
    match acc.getLast? with
    | some m => .ok m
    | none => .error .indexError
  | remaining + 1, stage, acc => do
    let gi ← unpack3 (pred_get_generator_input_for_stage acc stage noise conditioning)
    let gout := genFn gi (predict_stage_final_size stage)
    make_prediction_gan_model_go genFn stack_depth noise conditioning remaining
      (stage + 1)
      (acc ++ [{ generator_inputs := gi
                 generated_data := gout.fst
                 generator_hidden_code := gout.snd
                 stage := stack_depth }])

/-- `_make_prediction_gan_model` (gan_estimator_impl.py:392-487). -/
def make_prediction_gan_model
    (genFn : Bool × Tensor × Tensor → Nat → Tensor × Tensor)
    (stack_depth : Nat) (noise conditioning : Tensor) :
    Except PyError PredStageModel :=
  make_prediction_gan_model_go genFn stack_depth noise conditioning stack_depth 0 []

/-- `ModeKeys` of the estimator `model_fn`. -/
inductive ModeKeys where
  | train
  | eval
  | predict
deriving DecidableEq, Repr

/-- What `_gan_model_fn` assigns to `gan_models` / `logits`: a list of stage
models in train/eval mode, a single final-stage model in prediction mode
(gan_estimator_impl.py:290). -/
inductive EstLogits where
  | modelList (ms : List EstStageModel)
  | singleModel (m : PredStageModel)

/-- The mode dispatch of `_gan_model_fn` (gan_estimator_impl.py:257-294):
train and eval modes build the full stack; in prediction mode, non-`None`
`labels` raise `ValueError` ("`labels` must be `None` when mode is
`predict`."), otherwise `_make_prediction_gan_model` runs with no real data
and no discriminator. -/
def gan_model_fn (genFn : EstGenInput → Tensor × Tensor)
    (predGenFn : Bool × Tensor × Tensor → Nat → Tensor × Tensor)
    (stack_depth : Nat) (noise conditioning : Tensor)
    (labels : Option (List Tensor)) (mode : ModeKeys) : Except PyError EstLogits :=
  match mode with
  | .train => (make_gan_models genFn stack_depth noise conditioning).map .modelList
  | .eval => (make_gan_models genFn stack_depth noise conditioning).map .modelList
  | .predict =>
    if labels.isSome then
      .error .valueError
    else
      (make_prediction_gan_model predGenFn stack_depth noise conditioning).map .singleModel

/-! ## Losses (`train.py` `color_loss`, `dis_loss`, `gen_loss`) -/

/-- `tf.losses.mean_squared_error` on scalar statistics. -/
def mean_squared_error (a b : ℚ) : ℚ := (a - b) ^ 2

/-- The accumulation loop of `color_loss` (train.py:180-187): for each
adjacent pair of per-stage `(mean, covariance)` statistics, add
`FLAGS.color_loss * MSE(mean_i, mean_{i+1})` plus
`FLAGS.color_loss * 5 * MSE(cov_i, cov_{i+1})`. -/
def color_loss_terms (w : ℚ) : List (ℚ × ℚ) → ℚ
  | (m0, c0) :: (m1, c1) :: rest =>
    (w * mean_squared_error m0 m1 + w * 5 * mean_squared_error c0 c1)
      + color_loss_terms w ((m1, c1) :: rest)
  | _ => 0

/-- `color_loss` (train.py:168-189): the per-stage `(mean, covariance)` pixel
statistics come from `util._compute_mean_covariance(generated_data)` (the
`util` module is not under `src/`; per the spec they are the pixel mean and
covariance of the stage's generated data) and are taken here as inputs, one
pair per stage.  Note the return statement multiplies the accumulated total
by `FLAGS.color_loss` once more (train.py:189). -/
def color_loss (w : ℚ) (stats : List (ℚ × ℚ)) : ℚ :=
  w * color_loss_terms w stats

/-- The color-consistency loss as the claim and the spec state it: the sum
over adjacent stage pairs of `w * MSE(mean_i, mean_{i+1})` plus
`5 * w * MSE(cov_i, cov_{i+1})`, with the weight entering each term linearly
and no further scaling. -/
def claimed_color_loss (w : ℚ) : List (ℚ × ℚ) → ℚ
  | (m0, c0) :: (m1, c1) :: rest =>
    (w * mean_squared_error m0 m1 + 5 * w * mean_squared_error c0 c1)
      + claimed_color_loss w ((m1, c1) :: rest)
  | _ => 0

/-- `tensorflow.contrib.gan.python.train._validate_aux_loss_weight` for
non-tensor weights: `None` passes through, a negative number raises
`ValueError`, any other number passes through. -/
def validate_aux_loss_weight (w : Option ℚ) : Except PyError (Option ℚ) :=
  match w with
  | none => .ok none
  | some x => if x < 0 then .error .valueError else .ok (some x)

/-- `tensorflow.contrib.gan.python.train._use_aux_loss` for non-tensor
weights: the weight is used iff it is not `None` and not `0` (a `0.0` weight
counts as unused). -/
def use_aux_loss : Option ℚ → Bool
  | none => false
  | some x => x != 0

/-- The model capabilities and truthiness facts `dis_loss` dispatches on:
whether the model is a `tfgan.InfoGANModel` / `tfgan.ACGANModel` (a
`StackGANModel` is neither), and whether `model.discriminator_scope` is
truthy. -/
structure ModelVariant where
  is_infogan : Bool
  is_acgan : Bool
  has_dis_scope : Bool
deriving DecidableEq, Repr

/-- The externally computed loss values `dis_loss` combines for one stage:
`discriminator_loss_fn` on the (tensor-pool-adjusted) model, the gradient
penalty, the mutual-information penalty, the two ACGAN classification losses,
and `tf.losses.get_regularization_loss` over the discriminator scope. -/
structure DisLossParams where
  base_loss : ℚ
  gp_loss : ℚ
  info_loss : ℚ
  ac_gen_loss : ℚ
  ac_disc_loss : ℚ
  reg_loss : ℚ
deriving DecidableEq, Repr

/-- `dis_loss` (train.py:205-304).  Weight validation runs first
(train.py:251-258); then the InfoGAN capability check (train.py:261-265) and
the ACGAN capability check (train.py:268-274), each raising `ValueError`;
then the losses are combined.  The `aux_cond_generator_weight` branch at
train.py:290-292 computes `ac_gen_loss` but adds nothing, exactly as in the
source. -/
def dis_loss (model : ModelVariant) (p : DisLossParams)
    (gradient_penalty_weight mutual_information_penalty_weight
     aux_cond_generator_weight aux_cond_discriminator_weight : Option ℚ) :
    Except PyError ℚ :=
  match validate_aux_loss_weight gradient_penalty_weight with
  | .error e => .error e
  | .ok gpw =>
  match validate_aux_loss_weight mutual_information_penalty_weight with
  | .error e => .error e
  | .ok miw =>
  match validate_aux_loss_weight aux_cond_generator_weight with
  | .error e => .error e
  | .ok acgw =>
  match validate_aux_loss_weight aux_cond_discriminator_weight with
  | .error e => .error e
  | .ok acdw =>
  if use_aux_loss miw && !model.is_infogan then
    .error .valueError
  else if (use_aux_loss acgw || use_aux_loss acdw) && !model.is_acgan then
    .error .valueError
  else
    let l0 := p.base_loss
    let l1 := if use_aux_loss gpw then l0 + (gpw.getD 0) * p.gp_loss else l0
    let l2 := if use_aux_loss miw then l1 + (miw.getD 0) * p.info_loss else l1
    let l3 := if use_aux_loss acdw then l2 + (acdw.getD 0) * p.ac_disc_loss else l2
    let dis_reg_loss := if model.has_dis_scope then p.reg_loss else 0
    .ok (l3 + dis_reg_loss)

/-- The externally supplied data `gen_loss` combines: the stack depth, the
color-loss weight `FLAGS.color_loss` and per-stage pixel statistics, the
per-stage `generator_loss_fn` values, the per-stage auxiliary loss values,
whether `models[-1].generator_scope` is truthy, and the generator-scope
regularization loss. -/
structure GenLossParams where
  stack_depth : Nat
  color_loss_weight : ℚ
  stats : List (ℚ × ℚ)
  stage_loss : Nat → ℚ
  info_loss : Nat → ℚ
  ac_gen_loss : Nat → ℚ
  has_gen_scope : Bool
  reg_loss : ℚ

/-- The per-stage accumulation loop of `gen_loss` (train.py:370-382).  The
two auxiliary branches are kept as written; they are reachable only with a
falsy weight (see `gen_loss`), under which they add nothing. -/
def gen_loss_stage_sum (p : GenLossParams) (miw acgw : Option ℚ) : Nat → ℚ
  | 0 => 0
  | n + 1 =>
    gen_loss_stage_sum p miw acgw n + p.stage_loss n
      + (if use_aux_loss miw then (miw.getD 0) * p.info_loss n else 0)
      + (if use_aux_loss acgw then (acgw.getD 0) * p.ac_gen_loss n else 0)

/-- `gen_loss` (train.py:306-390).  Weight validation runs first
(train.py:337-340).  The InfoGAN capability check at train.py:343-347 reads
`isinstance(model, ...)`, but `gen_loss`'s parameter is named `models` and no
`model` is bound in any enclosing scope, so whenever
`_use_aux_loss(mutual_information_penalty_weight)` is truthy the check raises
`NameError` instead of the documented `ValueError`.  The ACGAN check at
train.py:350-355 is parenthesized as
`_use_aux_loss(aux_cond_generator_weight and not isinstance(model, ...))`,
so `model` is read — raising `NameError` — exactly when
`aux_cond_generator_weight` is truthy.  Otherwise the color loss is applied
when `FLAGS.color_loss > 0`, the per-stage losses are summed, and the
generator-scope regularization is added. -/
def gen_loss (p : GenLossParams)
    (mutual_information_penalty_weight aux_cond_generator_weight : Option ℚ) :
    Except PyError ℚ :=
  match validate_aux_loss_weight mutual_information_penalty_weight with
  | .error e => .error e
  | .ok miw =>
  match validate_aux_loss_weight aux_cond_generator_weight with
  | .error e => .error e
  | .ok acgw =>
  if use_aux_loss miw then
    .error .nameError
  else if use_aux_loss acgw then
    .error .nameError
  else
    let color_loss_value :=
      if 0 < p.color_loss_weight then color_loss p.color_loss_weight p.stats else 0
    let gen_reg_loss := if p.has_gen_scope then p.reg_loss else 0
    .ok (color_loss_value + gen_loss_stage_sum p miw acgw p.stack_depth + gen_reg_loss)

/-! ## Train ops and the alternation schedule (`train.py:484-653`) -/

/-- The train ops appearing in one training step. -/
inductive TrainOp where
  | dis_train (stage : Nat)
  | gen_train
  | global_step_inc
deriving DecidableEq, Repr

/-- `tfgan.GANTrainSteps`: how many times to run the generator op and each
discriminator op per step.  The default is `GANTrainSteps(1, 1)`
(train.py:610). -/
structure GANTrainSteps where
  generator_train_steps : Nat
  discriminator_train_steps : Nat
deriving DecidableEq, Repr

/-- The default `train_steps` argument of `get_sequential_train_hooks`. -/
def default_train_steps : GANTrainSteps := { generator_train_steps := 1, discriminator_train_steps := 1 }

/-- `discriminator_train_ops` (train.py:522-561): one `create_train_op` per
stage, built by `for i in range(FLAGS.stack_depth)`, in stage order. -/
def discriminator_train_ops (stack_depth : Nat) : List TrainOp :=
  (List.range stack_depth).map TrainOp.dis_train

/-- `tfgan.GANTrainOps` as instantiated at train.py:604: the single generator
train op, the list of per-stage discriminator train ops, and the global step
increment op. -/
structure GANTrainOps where
  generator_train_op : TrainOp
  discriminator_train_op : List TrainOp
  global_step_inc_op : TrainOp
deriving DecidableEq, Repr

/-- The train ops for a given stack depth (train.py:584-604). -/
def train_ops_for (stack_depth : Nat) : GANTrainOps :=
  { generator_train_op := TrainOp.gen_train
    discriminator_train_op := discriminator_train_ops stack_depth
    global_step_inc_op := TrainOp.global_step_inc }

/-- A `RunTrainOpsHook`: runs `train_op` in its `before_run`, `train_steps`
times. -/
structure RunTrainOpsHook where
  train_op : TrainOp
  train_steps : Nat
deriving DecidableEq, Repr

/-- `get_sequential_train_hooks` (train.py:610-634): one hook per
discriminator train op, in order, each running
`train_steps.discriminator_train_steps` times, followed by one generator hook
running `train_steps.generator_train_steps` times. -/
def get_sequential_train_hooks (train_steps : GANTrainSteps)
    (train_ops : GANTrainOps) : List RunTrainOpsHook :=
  (train_ops.discriminator_train_op.map fun op =>
    { train_op := op, train_steps := train_steps.discriminator_train_steps })
    ++ [{ train_op := train_ops.generator_train_op
          train_steps := train_steps.generator_train_steps }]

/-- The ops a `RunTrainOpsHook` executes in its `before_run`. -/
def run_hook (h : RunTrainOpsHook) : List TrainOp :=
  List.replicate h.train_steps h.train_op

/-- One training iteration of `tfgan.gan_train` (train.py:644-653) under the
monitored-session semantics: each hook's `before_run` executes its train op
its configured number of times, in hook order, and then the session runs the
main op — `train_ops.global_step_inc_op`, which `gan_train` passes to
`training.train`. -/
def run_training_step (stack_depth : Nat) (train_steps : GANTrainSteps) :
    List TrainOp :=
  ((get_sequential_train_hooks train_steps (train_ops_for stack_depth)).map run_hook).flatten
    ++ [(train_ops_for stack_depth).global_step_inc_op]

/-! ## Concrete fixtures used to evaluate the embedding -/

/-- A concrete noise tensor. -/
def tNoise : Tensor := { id := 0, shape := [some 1] }

/-- A concrete generated-data tensor. -/
def tGen : Tensor := { id := 1, shape := [some 1] }

/-- A concrete hidden-code tensor. -/
def tHid : Tensor := { id := 2, shape := [some 1] }

/-- A concrete real-data tensor whose shape matches `tGen`. -/
def tReal : Tensor := { id := 3, shape := [some 1] }

/-- A concrete real-data tensor whose shape is incompatible with `tGen`. -/
def tBad : Tensor := { id := 4, shape := [some 2] }

/-- A concrete conditioning tensor. -/
def tCond : Tensor := { id := 5, shape := [some 1] }

/-- A concrete training-path build configuration: the generator and
discriminator each create one trainable variable per stage, shapes all
match, and shape checking is on (the `train.py` default). -/
def sampleCfg : BuildCfg :=
  { genFn := fun _ _ => (tGen, tHid)
    disFn := fun t => t.id
    gVars := fun _ => ["w"]
    dVars := fun _ => ["w"]
    realData := fun _ => tReal
    noise := tNoise
    checkShapes := true }

/-- `sampleCfg` with a stage-0 shape mismatch and `check_shapes=False`, the
value `_make_gan_models` passes (gan_estimator_impl.py:350). -/
def mismatchCfg : BuildCfg :=
  { sampleCfg with realData := fun _ => tBad, checkShapes := false }

/-- The stage-0 model `buildStack sampleCfg 2` produces. -/
def sm0 : StackGANModel :=
  { generator_inputs := GenInputs.noiseOnly tNoise
    generated_data := tGen
    generator_variables := [VarScope.genStage 0 "w"]
    generator_scope := "Generator"
    real_data := tReal
    discriminator_real_outputs := 3
    discriminator_gen_outputs := 1
    discriminator_variables := [VarScope.disStage 0 "w"]
    discriminator_scope := "Discriminator_stage_0"
    generator_hidden_code := tHid
    stage := 0 }

/-- The stage-1 model `buildStack sampleCfg 2` produces. -/
def sm1 : StackGANModel :=
  { generator_inputs := GenInputs.hiddenNoise tHid tNoise
    generated_data := tGen
    generator_variables := [VarScope.genStage 0 "w", VarScope.genStage 1 "w"]
    generator_scope := "Generator"
    real_data := tReal
    discriminator_real_outputs := 3
    discriminator_gen_outputs := 1
    discriminator_variables := [VarScope.disStage 1 "w"]
    discriminator_scope := "Discriminator_stage_1"
    generator_hidden_code := tHid
    stage := 1 }

/-- A concrete estimator-path generator function. -/
def sampleEstGenFn : EstGenInput → Tensor × Tensor := fun _ => (tGen, tHid)

/-- A concrete prediction-path generator function. -/
def samplePredGenFn : Bool × Tensor × Tensor → Nat → Tensor × Tensor :=
  fun _ _ => (tGen, tHid)

/-- The stage-0 model `make_gan_models sampleEstGenFn 2 tNoise tCond`
produces. -/
def em0 : EstStageModel :=
  { generator_inputs := { is_init_stage := true, code := tNoise, conditioning := tCond }
    generated_data := tGen
    generator_hidden_code := tHid
    stage := 0 }

/-- The stage-1 model `make_gan_models sampleEstGenFn 2 tNoise tCond`
produces. -/
def em1 : EstStageModel :=
  { generator_inputs := { is_init_stage := false, code := tHid, conditioning := tCond }
    generated_data := tGen
    generator_hidden_code := tHid
    stage := 1 }

/-- A model-capability record for a `StackGANModel`: not an `InfoGANModel`,
not an `ACGANModel`, with a truthy discriminator scope. -/
def sampleVariant : ModelVariant :=
  { is_infogan := false, is_acgan := false, has_dis_scope := true }

/-- Concrete per-stage loss values for `dis_loss`. -/
def sampleDisParams : DisLossParams :=
  { base_loss := 3, gp_loss := 5, info_loss := 7, ac_gen_loss := 11,
    ac_disc_loss := 13, reg_loss := 17 }

/-- Concrete inputs for `gen_loss`: a depth-1 stack with the color loss off. -/
def sampleGenParams : GenLossParams :=
  { stack_depth := 1
    color_loss_weight := 0
    stats := [(0, 0)]
    stage_loss := fun _ => 3
    info_loss := fun _ => 7
    ac_gen_loss := fun _ => 11
    has_gen_scope := true
    reg_loss := 2 }

/-- Adjacent-stage statistics with differing means, used to evaluate
`color_loss` against its claimed form. -/
def sampleColorStats : List (ℚ × ℚ) := [(0, 0), (1, 0)]

/-! ## Helper lemmas: variable store snapshots -/

theorem filter_isGenVar_genMap (k : Nat) (l : List String) :
    (l.map (VarScope.genStage k)).filter isGenVar = l.map (VarScope.genStage k) := by
  induction l with
  | nil => rfl
  | cons a l ih => simp [isGenVar, ih]

theorem filter_isGenVar_disMap (k : Nat) (l : List String) :
    (l.map (VarScope.disStage k)).filter isGenVar = [] := by
  induction l with
  | nil => rfl
  | cons a l ih => simp [isGenVar, ih]

theorem filter_isDisVarOf_genMap (s k : Nat) (l : List String) :
    (l.map (VarScope.genStage k)).filter (isDisVarOf s) = [] := by
  induction l with
  | nil => rfl
  | cons a l ih => simp [isDisVarOf, ih]

theorem filter_isDisVarOf_disMap_self (k : Nat) (l : List String) :
    (l.map (VarScope.disStage k)).filter (isDisVarOf k) = l.map (VarScope.disStage k) := by
  induction l with
  | nil => rfl
  | cons a l ih => simp [isDisVarOf, ih]

/-- Every variable created during the first `i` stages is tagged with a stage
index below `i`. -/
theorem storeUpTo_stage_lt (cfg : BuildCfg) :
    ∀ (i : Nat), ∀ v ∈ storeUpTo cfg i,
      (match v with
       | VarScope.genStage k _ => k
       | VarScope.disStage k _ => k) < i := by
  intro i
  induction i with
  | zero => intro v hv; simp [storeUpTo] at hv
  | succ i ih =>
    intro v hv
    simp only [storeUpTo, List.mem_append] at hv
    rcases hv with hv | hv
    · exact Nat.lt_succ_of_lt (ih v hv)
    · simp only [stageVars, List.mem_append, List.mem_map] at hv
      rcases hv with ⟨a, _, rfl⟩ | ⟨a, _, rfl⟩ <;> exact Nat.lt_succ_self i

/-- The snapshot `tf.trainable_variables('Generator')` taken after stage `i`
is built equals the generator variables created by stages `0, ..., i`. -/
theorem trainable_variables_gen_storeUpTo (cfg : BuildCfg) :
    ∀ (i : Nat), trainable_variables_gen (storeUpTo cfg (i + 1)) = genVarsUpTo cfg i := by
  intro i
  induction i with
  | zero =>
    simp [trainable_variables_gen, storeUpTo, stageVars, genVarsUpTo,
      filter_isGenVar_genMap, filter_isGenVar_disMap]
  | succ i ih =>
    have hstep : storeUpTo cfg (i + 2) = storeUpTo cfg (i + 1) ++ stageVars cfg (i + 1) := rfl
    rw [hstep]
    simp only [trainable_variables_gen, List.filter_append] at ih ⊢
    rw [ih]
    simp [stageVars, genVarsUpTo, filter_isGenVar_genMap, filter_isGenVar_disMap]

/-- No variable created strictly before stage `i` survives the
`Discriminator_stage_i` scope filter. -/
theorem trainable_variables_dis_storeUpTo_self (cfg : BuildCfg) (i : Nat) :
    trainable_variables_dis (storeUpTo cfg (i + 1)) i =
      (cfg.dVars i).map (VarScope.disStage i) := by
  have hnil : (storeUpTo cfg i).filter (isDisVarOf i) = [] := by
    rw [List.filter_eq_nil_iff]
    intro v hv
    have := storeUpTo_stage_lt cfg i v hv
    cases v with
    | genStage k s => simp [isDisVarOf]
    | disStage k s =>
      simp only at this
      simp [isDisVarOf, Nat.ne_of_lt this]
  have hstep : storeUpTo cfg (i + 1) = storeUpTo cfg i ++ stageVars cfg i := rfl
  rw [trainable_variables_dis, hstep, List.filter_append, hnil]
  simp [stageVars, List.filter_append, filter_isDisVarOf_genMap,
    filter_isDisVarOf_disMap_self]

/-! ## Helper lemmas: `gan_model` inversion -/

theorem gan_model_ok_inv {cfg : BuildCfg} {stage : Nat} {genInput : GenInputs}
    {store : VarStore} {m : StackGANModel} {store2 : VarStore}
    (h : gan_model cfg stage genInput store = .ok (m, store2)) :
    store2 = store ++ stageVars cfg stage ∧
    m.generator_inputs = genInput ∧
    m.stage = stage ∧
    m.generator_scope = "Generator" ∧
    m.generator_variables = trainable_variables_gen (store ++ stageVars cfg stage) ∧
    m.discriminator_variables = trainable_variables_dis (store ++ stageVars cfg stage) stage ∧
    m.generated_data = (cfg.genFn genInput (train_stage_final_size stage)).fst ∧
    m.real_data = cfg.realData stage ∧
    m.generator_hidden_code = (cfg.genFn genInput (train_stage_final_size stage)).snd ∧
    (cfg.checkShapes = true →
      shapeCompatible m.generated_data.shape m.real_data.shape = true) := by
  rw [gan_model] at h
  split at h
  · exact absurd h (by simp)
  · rename_i hguard
    rw [Except.ok.injEq, Prod.mk.injEq] at h
    obtain ⟨hm, hs⟩ := h
    subst hm
    subst hs
    simp only [Bool.and_eq_true, Bool.not_eq_true', not_and] at hguard
    refine ⟨by simp [stageVars], rfl, rfl, rfl, by simp [stageVars], by simp [stageVars],
      rfl, rfl, rfl, ?_⟩
    intro hc
    have := hguard hc
    simpa using this

theorem gan_model_error_inv {cfg : BuildCfg} {stage : Nat} {genInput : GenInputs}
    {store : VarStore} {e : PyError}
    (h : gan_model cfg stage genInput store = .error e) : e = .valueError := by
  rw [gan_model] at h
  split at h
  · exact (Except.error.injEq _ _).mp h.symm ▸ rfl
  · exact absurd h (by simp)

theorem gan_model_isOk_of_compat {cfg : BuildCfg} {stage : Nat}
    {genInput : GenInputs} {store : VarStore}
    (h : shapeCompatible (cfg.genFn genInput (train_stage_final_size stage)).fst.shape
      (cfg.realData stage).shape = true) :
    ∃ m, gan_model cfg stage genInput store = .ok (m, store ++ stageVars cfg stage) := by
  rw [gan_model]
  split
  · rename_i hguard
    rw [h] at hguard
    simp at hguard
  · exact ⟨_, by rw [List.append_assoc]; rfl⟩

/-! ## Helper lemmas: the training-path build loop -/

theorem buildStackGo_length (cfg : BuildCfg) :
    ∀ (n stage : Nat) (prev : Option Tensor) (store : VarStore)
      (ms : List StackGANModel),
      buildStackGo cfg n stage prev store = .ok ms → ms.length = n := by
  intro n
  induction n with
  | zero =>
    intro stage prev store ms h
    simp only [buildStackGo, Except.ok.injEq] at h
    subst h
    rfl
  | succ n ih =>
    intro stage prev store ms h
    cases hg : gan_model cfg stage (stageInputOf cfg prev) store with
    | error e => simp [buildStackGo, hg] at h
    | ok p =>
      obtain ⟨m, store2⟩ := p
      cases hr : buildStackGo cfg n (stage + 1) (some m.generator_hidden_code) store2 with
      | error e => simp [buildStackGo, hg, hr] at h
      | ok rest =>
        simp only [buildStackGo, hg, hr, Except.ok.injEq] at h
        subst h
        simp [ih _ _ _ _ hr]

theorem buildStackGo_head (cfg : BuildCfg) :
    ∀ (n stage : Nat) (prev : Option Tensor) (store : VarStore)
      (ms : List StackGANModel),
      buildStackGo cfg n stage prev store = .ok ms →
      ∀ m0 ∈ ms.head?, m0.generator_inputs = stageInputOf cfg prev := by
  intro n stage prev store ms h m0 hm0
  cases n with
  | zero =>
    simp only [buildStackGo, Except.ok.injEq] at h
    subst h
    simp at hm0
  | succ n =>
    cases hg : gan_model cfg stage (stageInputOf cfg prev) store with
    | error e => simp [buildStackGo, hg] at h
    | ok p =>
      obtain ⟨m, store2⟩ := p
      cases hr : buildStackGo cfg n (stage + 1) (some m.generator_hidden_code) store2 with
      | error e => simp [buildStackGo, hg, hr] at h
      | ok rest =>
        simp only [buildStackGo, hg, hr, Except.ok.injEq] at h
        subst h
        simp only [List.head?_cons, Option.mem_def, Option.some.injEq] at hm0
        subst hm0
        exact (gan_model_ok_inv hg).2.1

theorem buildStackGo_adjacent (cfg : BuildCfg) :
    ∀ (n stage : Nat) (prev : Option Tensor) (store : VarStore)
      (ms : List StackGANModel),
      buildStackGo cfg n stage prev store = .ok ms →
      ∀ (p : Nat) (h1 : p < ms.length) (h2 : p + 1 < ms.length),
        (ms.get ⟨p + 1, h2⟩).generator_inputs =
          GenInputs.hiddenNoise ((ms.get ⟨p, h1⟩).generator_hidden_code) cfg.noise := by
  intro n
  induction n with
  | zero =>
    intro stage prev store ms h p h1 h2
    simp only [buildStackGo, Except.ok.injEq] at h
    subst h
    simp at h1
  | succ n ih =>
    intro stage prev store ms h p h1 h2
    cases hg : gan_model cfg stage (stageInputOf cfg prev) store with
    | error e => simp [buildStackGo, hg] at h
    | ok pr =>
      obtain ⟨m, store2⟩ := pr
      cases hr : buildStackGo cfg n (stage + 1) (some m.generator_hidden_code) store2 with
      | error e => simp [buildStackGo, hg, hr] at h
      | ok rest =>
        simp only [buildStackGo, hg, hr, Except.ok.injEq] at h
        subst h
        cases p with
        | zero =>
          cases rest with
          | nil => simp at h2
          | cons r rs =>
            have hhead := buildStackGo_head cfg n (stage + 1)
              (some m.generator_hidden_code) store2 (r :: rs) hr r (by simp)
            simpa [stageInputOf] using hhead
        | succ q =>
          exact ih (stage + 1) (some m.generator_hidden_code) store2 rest hr q
            (by simpa using h1) (by simpa using h2)

theorem buildStackGo_fields (cfg : BuildCfg) :
    ∀ (n stage : Nat) (prev : Option Tensor) (ms : List StackGANModel),
      buildStackGo cfg n stage prev (storeUpTo cfg stage) = .ok ms →
      ∀ (p : Nat) (hp : p < ms.length),
        (ms.get ⟨p, hp⟩).stage = stage + p ∧
        (ms.get ⟨p, hp⟩).generator_scope = "Generator" ∧
        (ms.get ⟨p, hp⟩).generator_variables = genVarsUpTo cfg (stage + p) ∧
        (ms.get ⟨p, hp⟩).discriminator_variables =
          (cfg.dVars (stage + p)).map (VarScope.disStage (stage + p)) ∧
        (cfg.checkShapes = true →
          shapeCompatible (ms.get ⟨p, hp⟩).generated_data.shape
            (ms.get ⟨p, hp⟩).real_data.shape = true) := by
  intro n
  induction n with
  | zero =>
    intro stage prev ms h p hp
    simp only [buildStackGo, Except.ok.injEq] at h
    subst h
    simp at hp
  | succ n ih =>
    intro stage prev ms h p hp
    cases hg : gan_model cfg stage (stageInputOf cfg prev) (storeUpTo cfg stage) with
    | error e => simp [buildStackGo, hg] at h
    | ok pr =>
      obtain ⟨m, store2⟩ := pr
      cases hr : buildStackGo cfg n (stage + 1) (some m.generator_hidden_code) store2 with
      | error e => simp [buildStackGo, hg, hr] at h
      | ok rest =>
        simp only [buildStackGo, hg, hr, Except.ok.injEq] at h
        subst h
        obtain ⟨hstore2, hinp, hstage, hscope, hgvars, hdvars, hgen, hreal, hhid, hcomp⟩ :=
          gan_model_ok_inv hg
        have hstore2eq : store2 = storeUpTo cfg (stage + 1) := by
          rw [hstore2]; rfl
        cases p with
        | zero =>
          have hsnap : storeUpTo cfg stage ++ stageVars cfg stage =
              storeUpTo cfg (stage + 1) := rfl
          rw [hsnap, trainable_variables_gen_storeUpTo cfg stage] at hgvars
          rw [hsnap, trainable_variables_dis_storeUpTo_self cfg stage] at hdvars
          exact ⟨by simpa using hstage, by simpa using hscope, by simpa using hgvars,
            by simpa using hdvars, by simpa using hcomp⟩
        | succ q =>
          have hq : q < rest.length := by simpa using hp
          have hrec := ih (stage + 1) (some m.generator_hidden_code) rest
            (hstore2eq ▸ hr) q hq
          have heq : stage + 1 + q = stage + (q + 1) := by omega
          rw [heq] at hrec
          simpa using hrec

theorem buildStackGo_isOk_of_compat (cfg : BuildCfg)
    (hall : ∀ (inp : GenInputs) (k : Nat),
      shapeCompatible ((cfg.genFn inp (train_stage_final_size k)).fst).shape
        (cfg.realData k).shape = true) :
    ∀ (n stage : Nat) (prev : Option Tensor) (store : VarStore),
      (buildStackGo cfg n stage prev store).isOk = true := by
  intro n
  induction n with
  | zero => intro stage prev store; rfl
  | succ n ih =>
    intro stage prev store
    obtain ⟨m, hg⟩ :=
      @gan_model_isOk_of_compat cfg stage (stageInputOf cfg prev) store (hall _ _)
    cases hr : buildStackGo cfg n (stage + 1) (some m.generator_hidden_code)
        (store ++ stageVars cfg stage) with
    | error e =>
      have hok := ih (stage + 1) (some m.generator_hidden_code) (store ++ stageVars cfg stage)
      rw [hr] at hok
      simp [Except.isOk, Except.toBool] at hok
    | ok rest =>
      simp [buildStackGo, hg, hr, Except.isOk, Except.toBool]

theorem buildStackGo_error_inv (cfg : BuildCfg) :
    ∀ (n stage : Nat) (prev : Option Tensor) (store : VarStore) (e : PyError),
      buildStackGo cfg n stage prev store = .error e → e = .valueError := by
  intro n
  induction n with
  | zero => intro stage prev store e h; simp [buildStackGo] at h
  | succ n ih =>
    intro stage prev store e h
    cases hg : gan_model cfg stage (stageInputOf cfg prev) store with
    | error e2 =>
      simp only [buildStackGo, hg, Except.error.injEq] at h
      subst h
      exact gan_model_error_inv hg
    | ok pr =>
      obtain ⟨m, store2⟩ := pr
      cases hr : buildStackGo cfg n (stage + 1) (some m.generator_hidden_code) store2 with
      | error e2 =>
        simp only [buildStackGo, hg, hr, Except.error.injEq] at h
        subst h
        exact ih _ _ _ _ hr
      | ok rest => simp [buildStackGo, hg, hr] at h

/-! ## Helper lemmas: the estimator train/eval build loop -/

theorem estTail_succ (genFn : EstGenInput → Tensor × Tensor)
    (noise conditioning : Tensor) (k stage : Nat) (prev : Option Tensor) :
    estTail genFn noise conditioning (k + 1) stage prev =
      tfstackgan_gan_model genFn (estInputFor noise conditioning stage prev) stage ::
        estTail genFn noise conditioning k (stage + 1)
          (some (genFn (estInputFor noise conditioning stage prev)).snd) := rfl

theorem make_gan_models_go_eq (genFn : EstGenInput → Tensor × Tensor)
    (noise conditioning : Tensor) :
    ∀ (n stage : Nat) (acc : List EstStageModel),
      acc.length = stage →
      make_gan_models_go genFn noise conditioning n stage acc =
        .ok (acc ++ estTail genFn noise conditioning n stage
          ((acc.getLast?).map (·.generator_hidden_code))) := by
  intro n
  induction n with
  | zero => intro stage acc hlen; simp [make_gan_models_go, estTail]
  | succ n ih =>
    intro stage acc hlen
    cases stage with
    | zero =>
      have hacc : acc = [] := List.length_eq_zero.mp hlen
      subst hacc
      have ihm := ih 1 [tfstackgan_gan_model genFn
        { is_init_stage := true, code := noise, conditioning := conditioning } 0] rfl
      simp only [List.getLast?_singleton, Option.map_some', tfstackgan_gan_model] at ihm
      rw [show (([] : List EstStageModel).getLast?).map
        (·.generator_hidden_code) = none from rfl, estTail_succ]
      simp [make_gan_models_go, est_get_generator_input_for_stage, estInputFor, ihm,
        tfstackgan_gan_model]
    | succ k =>
      cases hL : acc.getLast? with
      | none =>
        rw [List.getLast?_eq_none_iff] at hL
        subst hL
        simp at hlen
      | some lastm =>
        have h1 := List.getLast?_eq_getElem? acc
        rw [hlen, Nat.add_sub_cancel, hL] at h1
        have hidx : acc[k]? = some lastm := h1.symm
        have ihm := ih (k + 1 + 1)
          (acc ++ [tfstackgan_gan_model genFn
            { is_init_stage := false, code := lastm.generator_hidden_code,
              conditioning := conditioning } (k + 1)])
          (by simp [hlen])
        rw [List.getLast?_concat] at ihm
        simp only [Option.map_some', tfstackgan_gan_model] at ihm
        rw [Option.map_some', estTail_succ]
        simp [make_gan_models_go, est_get_generator_input_for_stage, hidx,
          estInputFor, ihm, tfstackgan_gan_model]

theorem make_gan_models_eq (genFn : EstGenInput → Tensor × Tensor)
    (depth : Nat) (noise conditioning : Tensor) :
    make_gan_models genFn depth noise conditioning =
      .ok (estTail genFn noise conditioning depth 0 none) := by
  have h := make_gan_models_go_eq genFn noise conditioning depth 0 [] rfl
  simpa [make_gan_models] using h

theorem estTail_length (genFn : EstGenInput → Tensor × Tensor)
    (noise conditioning : Tensor) :
    ∀ (n stage : Nat) (prev : Option Tensor),
      (estTail genFn noise conditioning n stage prev).length = n := by
  intro n
  induction n with
  | zero => intro stage prev; rfl
  | succ n ih => intro stage prev; rw [estTail_succ]; simp [ih]

theorem estTail_stage (genFn : EstGenInput → Tensor × Tensor)
    (noise conditioning : Tensor) :
    ∀ (n stage : Nat) (prev : Option Tensor) (p : Nat) (m : EstStageModel),
      (estTail genFn noise conditioning n stage prev)[p]? = some m →
      m.stage = stage + p := by
  intro n
  induction n with
  | zero => intro stage prev p m h; simp [estTail] at h
  | succ n ih =>
    intro stage prev p m h
    rw [estTail_succ] at h
    cases p with
    | zero =>
      simp only [List.getElem?_cons_zero, Option.some.injEq] at h
      subst h
      rfl
    | succ q =>
      simp only [List.getElem?_cons_succ] at h
      have hrec := ih (stage + 1)
        (some (genFn (estInputFor noise conditioning stage prev)).snd) q m h
      omega

theorem estTail_input_zero (genFn : EstGenInput → Tensor × Tensor)
    (noise conditioning : Tensor) (n stage : Nat) (prev : Option Tensor)
    (m : EstStageModel)
    (h : (estTail genFn noise conditioning n stage prev)[0]? = some m) :
    m.generator_inputs = estInputFor noise conditioning stage prev := by
  cases n with
  | zero => simp [estTail] at h
  | succ n =>
    rw [estTail_succ] at h
    simp only [List.getElem?_cons_zero, Option.some.injEq] at h
    subst h
    rfl

theorem estTail_adjacent (genFn : EstGenInput → Tensor × Tensor)
    (noise conditioning : Tensor) :
    ∀ (n stage : Nat) (prev : Option Tensor) (p : Nat) (a b : EstStageModel),
      (estTail genFn noise conditioning n stage prev)[p]? = some a →
      (estTail genFn noise conditioning n stage prev)[p + 1]? = some b →
      b.generator_inputs =
        { is_init_stage := false
          code := a.generator_hidden_code
          conditioning := conditioning } := by
  intro n
  induction n with
  | zero => intro stage prev p a b ha hb; simp [estTail] at ha
  | succ n ih =>
    intro stage prev p a b ha hb
    rw [estTail_succ] at ha hb
    cases p with
    | zero =>
      simp only [List.getElem?_cons_zero, Option.some.injEq] at ha
      simp only [List.getElem?_cons_succ] at hb
      have hb0 := estTail_input_zero genFn noise conditioning n (stage + 1)
        (some (genFn (estInputFor noise conditioning stage prev)).snd) b hb
      subst ha
      rw [hb0]
      simp [estInputFor, tfstackgan_gan_model]
    | succ q =>
      simp only [List.getElem?_cons_succ] at ha hb
      exact ih (stage + 1)
        (some (genFn (estInputFor noise conditioning stage prev)).snd) q a b ha hb

/-! ## Helper lemmas: prediction path, misc -/

theorem make_prediction_gan_model_typeError
    (genFn : Bool × Tensor × Tensor → Nat → Tensor × Tensor)
    (depth : Nat) (hd : 1 ≤ depth) (noise conditioning : Tensor) :
    make_prediction_gan_model genFn depth noise conditioning = .error .typeError := by
  cases depth with
  | zero => omega
  | succ d => rfl

theorem genVarsUpTo_mono (cfg : BuildCfg) (a b : Nat) (hab : a ≤ b) :
    genVarsUpTo cfg a ⊆ genVarsUpTo cfg b := by
  induction b, hab using Nat.le_induction with
  | base => exact fun v hv => hv
  | succ b hab ih =>
    intro v hv
    have : genVarsUpTo cfg (b + 1) = genVarsUpTo cfg b ++
        (cfg.gVars (b + 1)).map (VarScope.genStage (b + 1)) := rfl
    rw [this]
    exact List.mem_append_left _ (ih hv)

theorem disMap_disjoint (p q : Nat) (l1 l2 : List String) (hpq : p ≠ q) :
    (l1.map (VarScope.disStage p)).Disjoint (l2.map (VarScope.disStage q)) := by
  intro a h1 h2
  simp only [List.mem_map] at h1 h2
  obtain ⟨x, _, rfl⟩ := h1
  obtain ⟨y, _, hy⟩ := h2
  cases hy
  exact hpq rfl

theorem color_loss_terms_eq_claimed (w : ℚ) :
    ∀ stats, color_loss_terms w stats = claimed_color_loss w stats
  | [] => rfl
  | [_] => rfl
  | (m0, c0) :: (m1, c1) :: rest => by
    have ih := color_loss_terms_eq_claimed w ((m1, c1) :: rest)
    simp only [color_loss_terms, claimed_color_loss]
    rw [ih]
    ring

/-- Evaluation of the sample training-path build. -/
theorem sample_build : buildStack sampleCfg 2 = .ok [sm0, sm1] := by rfl

/-- Evaluation of the sample estimator-path build. -/
theorem sample_est_build :
    make_gan_models sampleEstGenFn 2 tNoise tCond = .ok [em0, em1] := by rfl

/-! ## Claim theorems -/

/-- Claim C9: the stage resolution schedule is not the same function of the
stage on the two build paths: the training path passes
`train_stage_final_size stage = 2 ^ (5 + stage)` (train.py:90) while the
prediction path passes `predict_stage_final_size stage = 2 ^ (6 + stage)`
(gan_estimator_impl.py:457); at every stage the prediction call site requests
twice the training call site's `final_size`, so the two paths are mutually
inconsistent, exactly as the claim states. -/
theorem C9_resolution_schedule_mismatch (stage : Nat) :
    predict_stage_final_size stage = 2 * train_stage_final_size stage ∧
    train_stage_final_size stage ≠ predict_stage_final_size stage := by
  have h2 : predict_stage_final_size stage = 2 * train_stage_final_size stage := by
    simp only [predict_stage_final_size, train_stage_final_size]
    rw [show 6 + stage = (5 + stage) + 1 from by omega, pow_succ]
    ring
  have hpos : 0 < train_stage_final_size stage := by
    simp only [train_stage_final_size]
    positivity
  exact ⟨h2, by omega⟩

/-- Claim C4: one training step executes, in order, the per-stage
discriminator train ops for stages `0, ..., stack_depth - 1` (each repeated
the configured `discriminator_train_steps` times), then the single generator
train op (repeated `generator_train_steps` times), then the global step
increment — and nothing else; the default `GANTrainSteps` configuration runs
each op once. -/
theorem C4_training_step_schedule (stack_depth dsteps gsteps : Nat) :
    run_training_step stack_depth
        { generator_train_steps := gsteps, discriminator_train_steps := dsteps } =
      ((List.range stack_depth).map fun i =>
          List.replicate dsteps (TrainOp.dis_train i)).flatten
        ++ (List.replicate gsteps TrainOp.gen_train ++ [TrainOp.global_step_inc]) ∧
    default_train_steps =
      { generator_train_steps := 1, discriminator_train_steps := 1 } := by
  constructor
  · simp only [run_training_step, get_sequential_train_hooks, train_ops_for,
      discriminator_train_ops, List.map_append, List.map_map, List.flatten_append,
      List.map_cons, List.map_nil, List.flatten_cons, List.flatten_nil,
      List.append_nil, List.append_assoc]
    congr 1
  · rfl

/-- Claim C5 counterexample: `color_loss` does not equal the claimed sum in
which the weight enters each term linearly — at weight `2` and statistics
`[(0, 0), (1, 0)]` the code returns `4` (the return statement at train.py:189
multiplies the accumulated total by the weight once more) while the claimed
sum is `2`. -/
theorem C5_counterexample :
    color_loss 2 sampleColorStats ≠ claimed_color_loss 2 sampleColorStats := by
  simp only [sampleColorStats, color_loss, color_loss_terms, claimed_color_loss,
    mean_squared_error]
  norm_num

/-- Claim C5 (amended): the color-consistency loss the code computes equals
the color-loss weight times the claimed sum — i.e. the sum over adjacent
stage pairs of `w * MSE(mean)` and `5 * w * MSE(cov)` is additionally scaled
by `w` on return, so the weight enters every term quadratically rather than
linearly. -/
theorem C5_amended_color_loss_weight_squared (w : ℚ) (stats : List (ℚ × ℚ)) :
    color_loss w stats = w * claimed_color_loss w stats := by
  rw [color_loss, color_loss_terms_eq_claimed]

/-- Claim C7: in prediction mode, a build with non-`None` real data (labels)
fails with the mode-violation `ValueError` (gan_estimator_impl.py:283-285) —
but with `labels = None` the build does not return the final stage's
generator outputs: it raises `TypeError` at the first stage, because
gan_estimator_impl.py:449 tuple-unpacks the function object returned by
`_get_generator_input_for_stage` without calling it (the train/eval path
calls the closure; omitting the call is a slip), so the discriminator-free
prediction model is never constructed. -/
theorem C7_prediction_mode_behavior :
    gan_model_fn sampleEstGenFn samplePredGenFn 1 tNoise tCond (some [tReal])
        ModeKeys.predict = .error .valueError ∧
    gan_model_fn sampleEstGenFn samplePredGenFn 1 tNoise tCond none
        ModeKeys.predict = .error .typeError := ⟨rfl, rfl⟩

/-- Claim C1 counterexample: in prediction mode the build does not produce
`stack_depth` StageModel records with stage fields `0, ..., stack_depth - 1`:
at depth 2 `_make_prediction_gan_model` raises `TypeError` before any record
is produced (the generator-input closure is unpacked without being called),
so the prediction-mode `model_fn` yields no stack at all; moreover the record
constructor at gan_estimator_impl.py:473 passes `stage=stack_depth`, not the
loop index. -/
theorem C1_counterexample :
    make_prediction_gan_model samplePredGenFn 2 tNoise tCond = .error .typeError ∧
    (gan_model_fn sampleEstGenFn samplePredGenFn 2 tNoise tCond none
        ModeKeys.predict).isOk = false := ⟨rfl, rfl⟩

/-- Claim C1 (amended): in training mode (`train.py`'s build loop) and in
evaluation mode (the estimator's `_make_gan_models` loop), building a stack
of depth `d` produces exactly `d` StageModel records whose stage fields are
`0, 1, ..., d - 1` in order; the prediction-mode path crashes before
producing any record and would tag every record with `stage = stack_depth`. -/
theorem C1_amended_stage_indices (cfg : BuildCfg) (depth : Nat)
    (ms : List StackGANModel) (h : buildStack cfg depth = .ok ms)
    (genFn : EstGenInput → Tensor × Tensor) (noise conditioning : Tensor)
    (ems : List EstStageModel)
    (hE : make_gan_models genFn depth noise conditioning = .ok ems) :
    ms.length = depth ∧
    (∀ (p : Nat) (m : StackGANModel), ms[p]? = some m → m.stage = p) ∧
    ems.length = depth ∧
    (∀ (p : Nat) (m : EstStageModel), ems[p]? = some m → m.stage = p) := by
  have hlen := buildStackGo_length cfg depth 0 none [] ms h
  have hfields := buildStackGo_fields cfg depth 0 none ms h
  have hEq := make_gan_models_eq genFn depth noise conditioning
  rw [hEq] at hE
  have hems : ems = estTail genFn noise conditioning depth 0 none := by
    rw [Except.ok.injEq] at hE
    exact hE.symm
  refine ⟨hlen, ?_, ?_, ?_⟩
  · intro p m hm
    obtain ⟨hp, hget⟩ := List.getElem?_eq_some_iff.mp hm
    have hs := (hfields p hp).1
    rw [List.get_eq_getElem, hget] at hs
    omega
  · rw [hems, estTail_length]
  · intro p m hm
    rw [hems] at hm
    have := estTail_stage genFn noise conditioning depth 0 none p m hm
    omega

/-- Claim C1 witness: the sample training and evaluation builds at depth 2
each produce exactly 2 records with stage fields 0 and 1. -/
theorem C1_amended_stage_indices_witness :
    [sm0, sm1].length = 2 ∧ sm1.stage = 1 ∧ [em0, em1].length = 2 ∧ em1.stage = 1 := by
  have h := C1_amended_stage_indices sampleCfg 2 [sm0, sm1] sample_build
    sampleEstGenFn tNoise tCond [em0, em1] sample_est_build
  exact ⟨h.1, h.2.1 1 sm1 rfl, h.2.2.1, h.2.2.2 1 em1 rfl⟩

/-- Claim C2: in every successfully built stack, stage 0's generator input is
the noise sample (on the `train.py` path, where no conditioning exists, the
raw noise; on the estimator path, the triple carrying the noise sample and
the shared conditioning), and for every stage `i > 0` the generator input is
a structure containing stage `i - 1`'s `generator_hidden_code` together with
the noise (train path) or the conditioning (estimator path). -/
theorem C2_generator_input_threading (cfg : BuildCfg) (depth : Nat)
    (ms : List StackGANModel) (h : buildStack cfg depth = .ok ms)
    (genFn : EstGenInput → Tensor × Tensor) (noise conditioning : Tensor)
    (ems : List EstStageModel)
    (hE : make_gan_models genFn depth noise conditioning = .ok ems) :
    (∀ m0, ms[0]? = some m0 → m0.generator_inputs = GenInputs.noiseOnly cfg.noise) ∧
    (∀ (p : Nat) (a b : StackGANModel), ms[p]? = some a → ms[p + 1]? = some b →
      b.generator_inputs = GenInputs.hiddenNoise a.generator_hidden_code cfg.noise) ∧
    (∀ m0, ems[0]? = some m0 → m0.generator_inputs =
      { is_init_stage := true, code := noise, conditioning := conditioning }) ∧
    (∀ (p : Nat) (a b : EstStageModel), ems[p]? = some a → ems[p + 1]? = some b →
      b.generator_inputs =
        { is_init_stage := false, code := a.generator_hidden_code,
          conditioning := conditioning }) := by
  have hEq := make_gan_models_eq genFn depth noise conditioning
  rw [hEq] at hE
  have hems : ems = estTail genFn noise conditioning depth 0 none := by
    rw [Except.ok.injEq] at hE
    exact hE.symm
  refine ⟨?_, ?_, ?_, ?_⟩
  · intro m0 hm0
    have hh := buildStackGo_head cfg depth 0 none [] ms h m0
    rw [List.head?_eq_getElem?] at hh
    exact hh hm0
  · intro p a b ha hb
    obtain ⟨hpa, hga⟩ := List.getElem?_eq_some_iff.mp ha
    obtain ⟨hpb, hgb⟩ := List.getElem?_eq_some_iff.mp hb
    have hadj := buildStackGo_adjacent cfg depth 0 none [] ms h p hpa hpb
    rw [List.get_eq_getElem, List.get_eq_getElem, hga, hgb] at hadj
    exact hadj
  · intro m0 hm0
    rw [hems] at hm0
    exact estTail_input_zero genFn noise conditioning depth 0 none m0 hm0
  · intro p a b ha hb
    rw [hems] at ha hb
    exact estTail_adjacent genFn noise conditioning depth 0 none p a b ha hb

/-- Claim C2 witness: in the sample depth-2 builds, stage 1's generator input
contains stage 0's hidden code on both the training and the estimator path. -/
theorem C2_generator_input_threading_witness :
    sm0.generator_inputs = GenInputs.noiseOnly sampleCfg.noise ∧
    sm1.generator_inputs =
      GenInputs.hiddenNoise sm0.generator_hidden_code sampleCfg.noise ∧
    em1.generator_inputs =
      { is_init_stage := false, code := em0.generator_hidden_code,
        conditioning := tCond } := by
  have h := C2_generator_input_threading sampleCfg 2 [sm0, sm1] sample_build
    sampleEstGenFn tNoise tCond [em0, em1] sample_est_build
  exact ⟨h.1 sm0 rfl, h.2.1 0 sm0 sm1 rfl rfl, h.2.2.2 0 em0 em1 rfl rfl⟩

/-- Claim C3 counterexample: the generator parameter sets recorded in the
StageModels of one training-mode stack are not all the same set — the
snapshots `tf.trainable_variables('Generator')` are taken while the stack is
still growing (train.py:109), so stage 0's recorded set lacks the generator
variables stage 1 creates: at depth 2 the stage-1 variable belongs to stage
1's recorded set but not to stage 0's. -/
theorem C3_counterexample :
    buildStack sampleCfg 2 = .ok [sm0, sm1] ∧
    VarScope.genStage 1 "w" ∈ sm1.generator_variables ∧
    VarScope.genStage 1 "w" ∉ sm0.generator_variables ∧
    sm0.generator_variables ≠ sm1.generator_variables := by
  refine ⟨sample_build, ?_, ?_, ?_⟩ <;> decide

/-- Claim C3 (amended): every StageModel's generator parameters are gathered
from the one shared super-scope (`generator_scope = "Generator"` in every
record), and stage `p`'s recorded generator set is exactly the generator
variables created by stages `0, ..., p` — so the recorded sets grow
monotonically along the stack (the final stage's set contains every stage's
generator parameters) instead of being identical; the discriminator parameter
sets of any two distinct stages are disjoint, each gathered from its own
per-stage scope. -/
theorem C3_amended_parameter_ownership (cfg : BuildCfg) (depth : Nat)
    (ms : List StackGANModel) (h : buildStack cfg depth = .ok ms) :
    (∀ m ∈ ms, m.generator_scope = "Generator") ∧
    (∀ (p : Nat) (m : StackGANModel), ms[p]? = some m →
      m.generator_variables = genVarsUpTo cfg p ∧
      m.discriminator_variables = (cfg.dVars p).map (VarScope.disStage p)) ∧
    (∀ (p q : Nat) (a b : StackGANModel), ms[p]? = some a → ms[q]? = some b →
      p ≤ q → a.generator_variables ⊆ b.generator_variables) ∧
    (∀ (p q : Nat) (a b : StackGANModel), ms[p]? = some a → ms[q]? = some b →
      p ≠ q → a.discriminator_variables.Disjoint b.discriminator_variables) := by
  have hfields := buildStackGo_fields cfg depth 0 none ms h
  have hvar : ∀ (p : Nat) (m : StackGANModel), ms[p]? = some m →
      m.generator_variables = genVarsUpTo cfg p ∧
      m.discriminator_variables = (cfg.dVars p).map (VarScope.disStage p) ∧
      m.generator_scope = "Generator" := by
    intro p m hm
    obtain ⟨hp, hget⟩ := List.getElem?_eq_some_iff.mp hm
    obtain ⟨h1, h2, h3, h4, h5⟩ := hfields p hp
    rw [List.get_eq_getElem, hget] at h2 h3 h4
    refine ⟨by simpa using h3, by simpa using h4, h2⟩
  refine ⟨?_, fun p m hm => ⟨(hvar p m hm).1, (hvar p m hm).2.1⟩, ?_, ?_⟩
  · intro m hm
    obtain ⟨p, hp⟩ := List.mem_iff_getElem?.mp hm
    exact (hvar p m hp).2.2
  · intro p q a b ha hb hpq
    rw [(hvar p a ha).1, (hvar q b hb).1]
    exact genVarsUpTo_mono cfg p q hpq
  · intro p q a b ha hb hpq
    rw [(hvar p a ha).2.1, (hvar q b hb).2.1]
    exact disMap_disjoint p q _ _ hpq

/-- Claim C3 witness: in the sample depth-2 training build, the shared
super-scope is recorded in stage 0, stage 0's generator set is contained in
stage 1's, and the two discriminator sets are disjoint. -/
theorem C3_amended_parameter_ownership_witness :
    sm0.generator_scope = "Generator" ∧
    sm0.generator_variables ⊆ sm1.generator_variables ∧
    sm0.discriminator_variables.Disjoint sm1.discriminator_variables := by
  have h := C3_amended_parameter_ownership sampleCfg 2 [sm0, sm1] sample_build
  exact ⟨h.1 sm0 (by simp), h.2.2.1 0 1 sm0 sm1 rfl rfl (by omega),
    h.2.2.2 0 1 sm0 sm1 rfl rfl (by omega)⟩

/-- Claim C6 counterexample: a shape mismatch does not always fail stack
construction — with `check_shapes=False` (the value the estimator's
`_make_gan_models` passes at gan_estimator_impl.py:350), building a depth-1
stack whose stage-0 generated shape `[1]` is incompatible with its real-data
shape `[2]` succeeds and returns a stack whose only stage records
incompatible shapes. -/
theorem C6_counterexample :
    (buildStack mismatchCfg 1).map
        (fun ms => ms.map fun m =>
          shapeCompatible m.generated_data.shape m.real_data.shape) = .ok [false] ∧
    mismatchCfg.checkShapes = false := ⟨rfl, rfl⟩

/-- Claim C6 (amended): when shape checking is enabled (`check_shapes=True`,
the `train.py` default), every stack that construction returns has
shape-compatible generated and real data at every stage, any stage whose
shapes are incompatible aborts the whole build (the only construction error
is the shape-mismatch `ValueError`), and if every stage's generated shape is
compatible with its real-data shape the build succeeds; the estimator path
passes `check_shapes=False`, under which mismatches do not fail the build. -/
theorem C6_amended_shape_check (cfg : BuildCfg) (depth : Nat)
    (hc : cfg.checkShapes = true) :
    (∀ ms, buildStack cfg depth = .ok ms →
      ∀ m ∈ ms, shapeCompatible m.generated_data.shape m.real_data.shape = true) ∧
    ((∀ (inp : GenInputs) (k : Nat),
        shapeCompatible ((cfg.genFn inp (train_stage_final_size k)).fst).shape
          (cfg.realData k).shape = true) →
      (buildStack cfg depth).isOk = true) ∧
    (∀ e, buildStack cfg depth = .error e → e = PyError.valueError) := by
  refine ⟨?_, ?_, ?_⟩
  · intro ms hms m hm
    have hfields := buildStackGo_fields cfg depth 0 none ms hms
    obtain ⟨p, hp, hget⟩ := List.mem_iff_getElem.mp hm
    have h5 := (hfields p hp).2.2.2.2
    rw [List.get_eq_getElem, hget] at h5
    exact h5 hc
  · intro hall
    exact buildStackGo_isOk_of_compat cfg hall depth 0 none []
  · intro e he
    exact buildStackGo_error_inv cfg depth 0 none [] e he

/-- Claim C6 witness: the sample depth-2 build with shape checking on
succeeds, and its stage-0 record has compatible shapes. -/
theorem C6_amended_shape_check_witness :
    shapeCompatible sm0.generated_data.shape sm0.real_data.shape = true ∧
    (buildStack sampleCfg 2).isOk = true := by
  have h := C6_amended_shape_check sampleCfg 2 rfl
  exact ⟨h.1 [sm0, sm1] sample_build sm0 (by simp), h.2.1 (fun inp k => rfl)⟩

/-- Claim C8: for a `StackGANModel` (neither an `InfoGANModel` nor an
`ACGANModel`), `dis_loss` fails with `ValueError` whenever a
mutual-information penalty weight or an auxiliary-classifier weight is
supplied with effect (non-`None` and nonzero, per `_use_aux_loss` — a
negative such weight also fails, at validation), fails whenever any supplied
auxiliary loss weight (including the gradient-penalty weight) is negative,
and with no auxiliary weights supplied returns a `DiscriminatorLoss`
normally, namely the base adversarial loss plus the scope regularization. -/
theorem C8_dis_loss_validation (m : ModelVariant) (p : DisLossParams) (x : ℚ)
    (hInfo : m.is_infogan = false) (hAc : m.is_acgan = false) :
    (x ≠ 0 → dis_loss m p none (some x) none none = .error .valueError) ∧
    (x ≠ 0 → dis_loss m p none none (some x) none = .error .valueError) ∧
    (x ≠ 0 → dis_loss m p none none none (some x) = .error .valueError) ∧
    (x < 0 → dis_loss m p (some x) none none none = .error .valueError) ∧
    (dis_loss m p none none none none =
      .ok (p.base_loss + if m.has_dis_scope then p.reg_loss else 0)) := by
  refine ⟨?_, ?_, ?_, ?_, rfl⟩
  · intro hne
    by_cases hx : x < 0
    · simp [dis_loss, validate_aux_loss_weight, hx]
    · simp [dis_loss, validate_aux_loss_weight, hx, use_aux_loss, bne_iff_ne,
        hne, hInfo]
  · intro hne
    by_cases hx : x < 0
    · simp [dis_loss, validate_aux_loss_weight, hx]
    · simp [dis_loss, validate_aux_loss_weight, hx, use_aux_loss, bne_iff_ne,
        hne, hAc]
  · intro hne
    by_cases hx : x < 0
    · simp [dis_loss, validate_aux_loss_weight, hx]
    · simp [dis_loss, validate_aux_loss_weight, hx, use_aux_loss, bne_iff_ne,
        hne, hAc]
  · intro hx
    simp [dis_loss, validate_aux_loss_weight, hx]

/-- Claim C8 witness: for a model that is neither InfoGAN nor ACGAN, a
nonzero mutual-information weight raises the configuration `ValueError`, and
with no auxiliary weights `dis_loss` returns the combined loss normally. -/
theorem C8_dis_loss_validation_witness :
    (1 : ℚ) ≠ 0 ∧
    dis_loss sampleVariant sampleDisParams none (some 1) none none =
      .error .valueError ∧
    dis_loss sampleVariant sampleDisParams none none none none = .ok (3 + 17) := by
  have h := C8_dis_loss_validation sampleVariant sampleDisParams 1 rfl rfl
  refine ⟨by norm_num, h.1 (by norm_num), ?_⟩
  have h5 := h.2.2.2.2
  simpa [sampleVariant, sampleDisParams] using h5

/-- Claim C10 counterexample: calling `gen_loss` with a non-`None`
mutual-information penalty weight does not always crash — with the weight
`0.0` (non-`None` but falsy), `_use_aux_loss` short-circuits the broken
`isinstance(model, ...)` check, so the undefined name `model` is never read
and the computation returns normally. -/
theorem C10_counterexample :
    (some (0 : ℚ)).isSome = true ∧
    (gen_loss sampleGenParams (some 0) none).isOk = true := ⟨rfl, rfl⟩

/-- Claim C10 (amended): `gen_loss` crashes with the unbound-name `NameError`
(its validation code references `model`, which is never defined in that
function) exactly when a weight survives validation and is truthy: whenever
the mutual-information weight and the auxiliary-classifier weight are each
`None` or non-negative and at least one of them is used (non-`None` and
nonzero, per `_use_aux_loss`), the result is `NameError` rather than the
documented `ValueError`; a negative mutual-information weight instead raises
`ValueError` during validation, before the unbound reference; and with both
weights left `None` the broken branches are never reached and the
computation returns normally. -/
theorem C10_gen_loss_unbound_model (p : GenLossParams) (miw acgw : Option ℚ)
    (hmi : ∀ x : ℚ, miw = some x → 0 ≤ x) (hac : ∀ x : ℚ, acgw = some x → 0 ≤ x)
    (huse : use_aux_loss miw = true ∨ use_aux_loss acgw = true) :
    gen_loss p miw acgw = .error .nameError ∧
    (∀ x : ℚ, x < 0 → gen_loss p (some x) acgw = .error .valueError) ∧
    (gen_loss p none none).isOk = true := by
  refine ⟨?_, ?_, rfl⟩
  · have hvm : validate_aux_loss_weight miw = .ok miw := by
      rcases miw with _ | x
      · rfl
      · have hx := hmi x rfl
        simp [validate_aux_loss_weight, not_lt.mpr hx]
    have hva : validate_aux_loss_weight acgw = .ok acgw := by
      rcases acgw with _ | y
      · rfl
      · have hy := hac y rfl
        simp [validate_aux_loss_weight, not_lt.mpr hy]
    by_cases hm : use_aux_loss miw = true
    · simp [gen_loss, hvm, hva, hm]
    · have hg : use_aux_loss acgw = true := by
        rcases huse with hu | hu
        · exact absurd hu hm
        · exact hu
      simp [gen_loss, hvm, hva, hm, hg]
  · intro x hx
    simp [gen_loss, validate_aux_loss_weight, hx]

/-- Claim C10 witness: a positive mutual-information weight (which survives
validation and is truthy) makes `gen_loss` crash with `NameError`. -/
theorem C10_gen_loss_unbound_model_witness :
    use_aux_loss (some (1 : ℚ)) = true ∧
    gen_loss sampleGenParams (some 1) none = .error .nameError := by
  have h := C10_gen_loss_unbound_model sampleGenParams (some 1) none
    (fun x hx => by rw [Option.some.injEq] at hx; rw [← hx]; norm_num)
    (fun x hx => by simp at hx)
    (Or.inl (by norm_num [use_aux_loss]))
  exact ⟨by norm_num [use_aux_loss], h.1⟩
